import Mathlib

/-
Verification of the FanPyControl daemon core (src/fanpycontrol.py) against
its specification. The Python source is shallowly embedded: device files
become explicit content/cursor states, the sampler and fan controller
become pure state-passing functions, and the polling loop becomes a
function of an iteration schedule that records when a concurrent
`shutdown()` call lands. Exact rational arithmetic stands in for Python
floats, with Python's banker's rounding made explicit.
-/

namespace FanPy

/-- Python banker's rounding (round-half-to-even), the semantics of the
builtin `round` applied to an exact rational value. -/
def pyRound (q : ℚ) : ℤ :=
  let f : ℤ := ⌊q⌋
  let frac : ℚ := q - f
  if frac < 1/2 then f
  else if 1/2 < frac then f + 1
  else if f % 2 = 0 then f else f + 1

/-- Embedding of `imath.clamp`, the external helper the source imports;
per the spec it clamps a value into the closed interval. -/
def clamp (value lo hi : ℤ) : ℤ := max lo (min value hi)

/-- Embedding of `imath.lerp`: linear interpolation between `a` and `b`. -/
def lerp (a b : ℤ) (t : ℚ) : ℚ := (a : ℚ) + ((b : ℚ) - (a : ℚ)) * t

/-- `clamped_linear_interpolation`: interpolate, round to nearest, then
clamp into `[minimum, maximum]`. -/
def clamped_linear_interpolation (minimum maximum : ℤ) (percentage : ℚ) : ℤ :=
  clamp (pyRound (lerp minimum maximum percentage)) minimum maximum

/-- `pwm_clamp`: clamp into the hardware PWM range `[0, 255]`. -/
def pwm_clamp (pwm_value : ℤ) : ℤ := clamp pwm_value 0 255

/-- Decimal digit character. -/
def digitChar (n : ℕ) : Char := Char.ofNat (48 + n)

def natCharsAux : ℕ → ℕ → List Char
  | 0, _ => []
  | fuel + 1, n =>
    if n < 10 then [digitChar n]
    else natCharsAux fuel (n / 10) ++ [digitChar (n % 10)]

/-- Decimal representation of a natural number, as Python `str` produces. -/
def natChars (n : ℕ) : List Char := natCharsAux (n + 1) n

/-- Decimal representation of an integer, as Python `str` produces. -/
def intChars (n : ℤ) : List Char :=
  if n < 0 then '-' :: natChars n.natAbs else natChars n.natAbs

def isSpaceChar (c : Char) : Bool := c = ' ' || c = '\n' || c = '\t' || c = '\r'

def stripChars (s : List Char) : List Char :=
  ((s.dropWhile isSpaceChar).reverse.dropWhile isSpaceChar).reverse

def digitVal (c : Char) : ℕ := c.toNat - 48

def parseNatChars (s : List Char) : ℕ := s.foldl (fun a c => a * 10 + digitVal c) 0

/-- Python `int(...)` on a string: strip whitespace, optional sign, digits. -/
def parseIntChars (s : List Char) : ℤ :=
  match stripChars s with
  | '-' :: rest => -(parseNatChars rest : ℤ)
  | '+' :: rest => (parseNatChars rest : ℤ)
  | t => (parseNatChars t : ℤ)

/-- A text-mode device file: its characters and the stream cursor. -/
structure TextFile where
  content : List Char
  pos : ℕ
deriving DecidableEq

def TextFile.seek (f : TextFile) (p : ℕ) : TextFile := { f with pos := p }

/-- Overwrite-in-place at the cursor, advancing the cursor (Python
text-mode `write` on an `r+`/`w` stream). -/
def TextFile.write (f : TextFile) (s : List Char) : TextFile :=
  { content := f.content.take f.pos ++ s ++ f.content.drop (f.pos + s.length),
    pos := f.pos + s.length }

def lineOf : List Char → List Char
  | [] => []
  | c :: cs => if c = '\n' then [c] else c :: lineOf cs

/-- Read one line (newline included) from the cursor, advancing it. -/
def TextFile.readline (f : TextFile) : List Char × TextFile :=
  let line := lineOf (f.content.drop f.pos)
  (line, { f with pos := f.pos + line.length })

/-- The `PWMMode` IntEnum: 1 is manual control, 5 automatic. -/
inductive PWMMode
  | MANUAL
  | AUTO
deriving DecidableEq

def PWMMode.value : PWMMode → ℤ
  | .MANUAL => 1
  | .AUTO => 5

/-- Python `str` of an IntEnum member (Python 3.11+): the decimal value. -/
def PWMMode.str (m : PWMMode) : List Char := intChars m.value

structure PWMConfiguration where
  minimum : ℤ
  maximum : ℤ
  fan_stop : ℤ
  fan_start : ℤ
deriving DecidableEq

/-- `PWMConfiguration.from_json`: each field is `pwm_clamp`ed at construction. -/
def PWMConfiguration.from_json (minimum maximum fan_stop fan_start : ℤ) : PWMConfiguration :=
  ⟨pwm_clamp minimum, pwm_clamp maximum, pwm_clamp fan_stop, pwm_clamp fan_start⟩

/-- Temperature sampler state: bounds and the `deque(maxlen=average)`
history buffer, oldest element first. The sensor `input` stream is an
external device; each read is modelled by the millidegree integer the
device holds at that instant. -/
structure TemperatureConfiguration where
  minimum : ℤ
  maximum : ℤ
  maxlen : ℕ
  previous_temperatures : List ℤ
deriving DecidableEq

def TemperatureConfiguration.delta (tc : TemperatureConfiguration) : ℤ :=
  tc.maximum - tc.minimum

/-- `deque.append` on a `deque(maxlen=cap)`: append right, evict left
once the capacity is exceeded. -/
def dequeAppend (cap : ℕ) (buf : List ℤ) (x : ℤ) : List ℤ :=
  let b := buf ++ [x]
  b.drop (b.length - cap)

/-- `_read_temperature`: seek to start, read the millidegree line, divide
by 1000 with `int(...)` truncation toward zero. -/
def _read_temperature (raw_millidegrees : ℤ) : ℤ := raw_millidegrees.tdiv 1000

/-- Exact arithmetic mean (`statistics.mean`) of an integer list. -/
def ratMean (l : List ℤ) : ℚ := (l.sum : ℚ) / (l.length : ℚ)

/-- `get_temperature`: append the current reading to the history and
return the rounded mean of the buffer. -/
def TemperatureConfiguration.get_temperature (tc : TemperatureConfiguration)
    (raw : ℤ) : ℤ × TemperatureConfiguration :=
  let buf := dequeAppend tc.maxlen tc.previous_temperatures (_read_temperature raw)
  (pyRound (ratMean buf), { tc with previous_temperatures := buf })

/-- Iterate `get_temperature` over a list of sensor readings, collecting
the returned averages. -/
def TemperatureConfiguration.sampleTrace :
    TemperatureConfiguration → List ℤ → List ℤ × TemperatureConfiguration
  | tc, [] => ([], tc)
  | tc, r :: rs =>
    let t := tc.get_temperature r
    let out := t.2.sampleTrace rs
    (t.1 :: out.1, out.2)

/-- One fan's control state: device files, sampler, PWM range, running
flag and the mode captured at construction. -/
structure FanConfiguration where
  pwm_file : TextFile
  fan_input : Option TextFile
  temperature : TemperatureConfiguration
  pwm : PWMConfiguration
  mode_file : TextFile
  is_running : Bool
  original_mode : ℤ
deriving DecidableEq

/-- `__post_init__`: open the mode file (cursor at 0), seek 0, read the
current mode line as `original_mode`, seek 0 again; `is_running` starts true. -/
def FanConfiguration.post_init (pwm_file : TextFile) (fan_input : Option TextFile)
    (temperature : TemperatureConfiguration) (pwm : PWMConfiguration)
    (mode_contents : List Char) : FanConfiguration :=
  let f1 := (TextFile.mk mode_contents 0).seek 0
  let lr := f1.readline
  { pwm_file := pwm_file, fan_input := fan_input, temperature := temperature,
    pwm := pwm, mode_file := lr.2.seek 0, is_running := true,
    original_mode := parseIntChars lr.1 }

/-- `set_mode`: write the mode string, then seek to the start. -/
def FanConfiguration.set_mode (s : FanConfiguration) (mode : PWMMode) : FanConfiguration :=
  { s with mode_file := (s.mode_file.write mode.str).seek 0 }

/-- `write_pwm`: seek the PWM file to the start, then write the value. -/
def FanConfiguration.write_pwm (s : FanConfiguration) (pwm : ℤ) : FanConfiguration :=
  { s with pwm_file := (s.pwm_file.seek 0).write (intChars pwm) }

/-- `get_temperature_percentage`: `(get_temperature() - minimum) / delta`. -/
def FanConfiguration.get_temperature_percentage (s : FanConfiguration)
    (raw : ℤ) : ℚ × FanConfiguration :=
  let tr := s.temperature.get_temperature raw
  (((tr.1 : ℚ) - (s.temperature.minimum : ℚ)) / (s.temperature.delta : ℚ),
    { s with temperature := tr.2 })

/-- `get_current_pwm`: clamped interpolation between the configured PWM
bounds by the temperature percentage. -/
def FanConfiguration.get_current_pwm (s : FanConfiguration) (raw : ℤ) :
    ℤ × FanConfiguration :=
  let pr := s.get_temperature_percentage raw
  (clamped_linear_interpolation s.pwm.minimum s.pwm.maximum pr.1, pr.2)

/-- `shutdown`: write `original_mode` at the current cursor, then seek to
the start, then clear the running flag (the write happens before the seek). -/
def FanConfiguration.shutdown (s : FanConfiguration) : FanConfiguration :=
  { s with mode_file := (s.mode_file.write (intChars s.original_mode)).seek 0,
           is_running := false }

/-- The mode-restoring write reordered as the spec describes it: seek to
the start first, then write `original_mode`, then clear the flag. -/
def shutdownSeekFirst (s : FanConfiguration) : FanConfiguration :=
  { s with mode_file := (s.mode_file.seek 0).write (intChars s.original_mode),
           is_running := false }

/-- Observable writes to the fan's device files. -/
inductive DeviceEvent
  | modeWrite (s : List Char)
  | pwmWrite (s : List Char)
deriving DecidableEq

def DeviceEvent.isModeWrite : DeviceEvent → Bool
  | .modeWrite _ => true
  | .pwmWrite _ => false

/-- The `while is_running` loop of `run`. Each schedule entry is one
iteration boundary: whether `shutdown()` was invoked by another thread
during the preceding sleep, and the sensor reading for the iteration.
The flag is observed at the boundary; if it is still true the loop
computes and writes one PWM value and continues, otherwise it exits. -/
def FanConfiguration.runLoop :
    FanConfiguration → List (Bool × ℤ) → FanConfiguration × List DeviceEvent
  | s, [] => (s, [])
  | s, (sd, raw) :: rest =>
    let s0 := if sd then s.shutdown else s
    if s0.is_running then
      let pr := s0.get_current_pwm raw
      let s2 := pr.2.write_pwm pr.1
      let out := s2.runLoop rest
      (out.1, .pwmWrite (intChars pr.1) :: out.2)
    else (s0, [])

/-- `run`: write MANUAL mode once, then enter the polling loop. -/
def FanConfiguration.run (s : FanConfiguration) (sched : List (Bool × ℤ)) :
    FanConfiguration × List DeviceEvent :=
  let s1 := s.set_mode PWMMode.MANUAL
  let out := s1.runLoop sched
  (out.1, .modeWrite PWMMode.MANUAL.str :: out.2)

/-- The loaded configuration: poll interval and the fan controllers. -/
structure Configuration where
  interval : ℚ
  controls : List FanConfiguration

/-- The signal handler `graceful_shutdown`: call `shutdown()` on every
fan controller, in order. -/
def graceful_shutdown (c : Configuration) : Configuration :=
  { c with controls := c.controls.map FanConfiguration.shutdown }

/-- The last `n` elements of a list. -/
def takeLast (n : ℕ) (l : List ℤ) : List ℤ := l.drop (l.length - n)

/-- Sampler of the worked numerical example: window capacity 1,
temperature range 20..80. -/
def tcC8 : TemperatureConfiguration := ⟨20, 80, 1, []⟩

/-- Fan of the worked numerical example: pwm range 50..255, mode file "5". -/
def fanC8 : FanConfiguration :=
  ⟨⟨[], 0⟩, none, tcC8, ⟨50, 255, 0, 0⟩, ⟨['5', '\n'], 0⟩, true, 5⟩

/-- A fan whose mode-file cursor is not at the start. -/
def fanPosOne : FanConfiguration :=
  ⟨⟨[], 0⟩, none, tcC8, ⟨50, 255, 0, 0⟩, ⟨['a', 'b'], 1⟩, true, 5⟩

/-- A fan whose running flag has already been cleared. -/
def fanStopped : FanConfiguration :=
  ⟨⟨[], 0⟩, none, tcC8, ⟨50, 255, 0, 0⟩, ⟨['5', '\n'], 0⟩, false, 5⟩

/-- Sampler with window capacity 2 for the moving-average witness. -/
def tcC4 : TemperatureConfiguration := ⟨20, 80, 2, []⟩

/-- A one-fan configuration for the supervisor witness. -/
def confC6 : Configuration := ⟨1, [fanC8]⟩

theorem pyRound_bounds (q : ℚ) : ⌊q⌋ ≤ pyRound q ∧ pyRound q ≤ ⌊q⌋ + 1 := by
  simp only [pyRound]
  split_ifs <;> omega

theorem le_pyRound {n : ℤ} {q : ℚ} (h : (n : ℚ) ≤ q) : n ≤ pyRound q := by
  have h1 : n ≤ ⌊q⌋ := Int.le_floor.mpr h
  have h2 := (pyRound_bounds q).1
  omega

theorem pyRound_le {n : ℤ} {q : ℚ} (h : q ≤ (n : ℚ)) : pyRound q ≤ n := by
  have hfl : ⌊q⌋ ≤ n := by
    have := Int.floor_le_floor h
    simpa using this
  rcases lt_or_le ⌊q⌋ n with hlt | hge
  · have h2 := (pyRound_bounds q).2
    omega
  · have heq : ⌊q⌋ = n := le_antisymm hfl hge
    have hfrac : q - (⌊q⌋ : ℚ) < 1 / 2 := by
      rw [heq]
      have : q - (n : ℚ) ≤ 0 := by linarith
      linarith
    simp only [pyRound, if_pos hfrac]
    omega

theorem clamp_of_le {v mn mx : ℤ} (hv : v ≤ mn) (h : mn ≤ mx) : clamp v mn mx = mn := by
  simp only [clamp, min_def, max_def]
  split_ifs <;> omega

theorem clamp_of_ge {v mn mx : ℤ} (hv : mx ≤ v) (h : mn ≤ mx) : clamp v mn mx = mx := by
  simp only [clamp, min_def, max_def]
  split_ifs <;> omega

theorem clamp_mem {v mn mx : ℤ} (h : mn ≤ mx) :
    mn ≤ clamp v mn mx ∧ clamp v mn mx ≤ mx := by
  simp only [clamp, min_def, max_def]
  split_ifs <;> omega

theorem pwm_clamp_bounds (v : ℤ) : 0 ≤ pwm_clamp v ∧ pwm_clamp v ≤ 255 := by
  simp only [pwm_clamp, clamp, min_def, max_def]
  split_ifs <;> omega

theorem pwm_clamp_id {v : ℤ} (h0 : 0 ≤ v) (h1 : v ≤ 255) : pwm_clamp v = v := by
  simp only [pwm_clamp, clamp, min_def, max_def]
  split_ifs <;> omega

theorem clamp_mem_255 {v lo hi : ℤ} (h0 : 0 ≤ lo) (h1 : lo ≤ 255) (h2 : hi ≤ 255) :
    0 ≤ clamp v lo hi ∧ clamp v lo hi ≤ 255 := by
  simp only [clamp, min_def, max_def]
  split_ifs <;> omega

theorem dequeAppend_eq_takeLast (cap : ℕ) (b : List ℤ) (x : ℤ) :
    dequeAppend cap b x = takeLast cap (b ++ [x]) := rfl

theorem takeLast_length (n : ℕ) (l : List ℤ) :
    (takeLast n l).length = min n l.length := by
  simp only [takeLast, List.length_drop]
  omega

theorem takeLast_of_le {n : ℕ} {l : List ℤ} (h : l.length ≤ n) : takeLast n l = l := by
  simp only [takeLast]
  rw [Nat.sub_eq_zero_of_le h, List.drop_zero]

theorem takeLast_append_takeLast (n : ℕ) (l l2 : List ℤ) :
    takeLast n (takeLast n l ++ l2) = takeLast n (l ++ l2) := by
  simp only [takeLast, List.length_append, List.length_drop,
    List.drop_append_eq_append_drop, List.drop_drop]
  have e1 : l.length - n + (l.length - (l.length - n) + l2.length - n) =
      l.length + l2.length - n := by omega
  have e2 : l.length - (l.length - n) + l2.length - n - (l.length - (l.length - n)) =
      l.length + l2.length - n - l.length := by omega
  rw [e1, e2]

theorem sampleTrace_outputs_length (rs : List ℤ) : ∀ tc : TemperatureConfiguration,
    (tc.sampleTrace rs).1.length = rs.length := by
  induction rs with
  | nil => intro tc; rfl
  | cons r rest ih =>
    intro tc
    simp only [TemperatureConfiguration.sampleTrace, List.length_cons]
    rw [ih]

theorem sampleTrace_buffer (rs : List ℤ) : ∀ tc : TemperatureConfiguration,
    tc.previous_temperatures.length ≤ tc.maxlen →
    (tc.sampleTrace rs).2.previous_temperatures =
      takeLast tc.maxlen (tc.previous_temperatures ++ rs.map _read_temperature) := by
  induction rs with
  | nil =>
    intro tc h
    simp only [TemperatureConfiguration.sampleTrace, List.map_nil, List.append_nil]
    exact (takeLast_of_le h).symm
  | cons r rest ih =>
    intro tc h
    simp only [TemperatureConfiguration.sampleTrace, TemperatureConfiguration.get_temperature,
      List.map_cons]
    have hstep : dequeAppend tc.maxlen tc.previous_temperatures (_read_temperature r) =
        takeLast tc.maxlen (tc.previous_temperatures ++ [_read_temperature r]) := rfl
    have hlen : (dequeAppend tc.maxlen tc.previous_temperatures
        (_read_temperature r)).length ≤ tc.maxlen := by
      rw [hstep, takeLast_length]
      omega
    have hih := ih ⟨tc.minimum, tc.maximum, tc.maxlen,
      dequeAppend tc.maxlen tc.previous_temperatures (_read_temperature r)⟩ hlen
    simp only at hih
    rw [hih, hstep, takeLast_append_takeLast, List.append_assoc]
    rfl

theorem sampleTrace_cons_fst (tc : TemperatureConfiguration) (r : ℤ) (rs : List ℤ) :
    (tc.sampleTrace (r :: rs)).1 =
      (tc.get_temperature r).1 :: ((tc.get_temperature r).2.sampleTrace rs).1 := rfl

theorem sampleTrace_cons_snd (tc : TemperatureConfiguration) (r : ℤ) (rs : List ℤ) :
    (tc.sampleTrace (r :: rs)).2 = ((tc.get_temperature r).2.sampleTrace rs).2 := rfl

theorem sampleTrace_last (rs : List ℤ) : ∀ tc : TemperatureConfiguration, rs ≠ [] →
    (tc.sampleTrace rs).1.getLast? =
      some (pyRound (ratMean (tc.sampleTrace rs).2.previous_temperatures)) := by
  induction rs with
  | nil => intro tc h; exact absurd rfl h
  | cons r rest ih =>
    intro tc _
    rw [sampleTrace_cons_fst, sampleTrace_cons_snd]
    cases rest with
    | nil =>
      simp [TemperatureConfiguration.sampleTrace, TemperatureConfiguration.get_temperature]
    | cons r2 rest2 =>
      have hne : r2 :: rest2 ≠ [] := by simp
      have hlast := ih (tc.get_temperature r).2 hne
      have hlen : (((tc.get_temperature r).2).sampleTrace (r2 :: rest2)).1.length =
          (r2 :: rest2).length := sampleTrace_outputs_length _ _
      match hout : (((tc.get_temperature r).2).sampleTrace (r2 :: rest2)).1 with
      | [] => rw [hout] at hlen; simp at hlen
      | o :: os =>
        rw [hout] at hlast
        rw [List.getLast?_cons_cons]
        exact hlast

/-- When no shutdown is delivered during the loop, the loop never touches
the mode file or the stored original mode. -/
theorem runLoop_mode_file_frame (sched : List (Bool × ℤ)) :
    ∀ s : FanConfiguration, (∀ e ∈ sched, e.1 = false) →
      ((s.runLoop sched).1.mode_file = s.mode_file ∧
        (s.runLoop sched).1.original_mode = s.original_mode) := by
  induction sched with
  | nil => intro s _; exact ⟨rfl, rfl⟩
  | cons e rest ih =>
    intro s hf
    obtain ⟨sd, raw⟩ := e
    have hsd : sd = false := hf (sd, raw) (List.mem_cons_self _ _)
    subst hsd
    have hrest : ∀ x ∈ rest, x.1 = false := fun x hx => hf x (List.mem_cons_of_mem _ hx)
    simp only [FanConfiguration.runLoop, Bool.false_eq_true, ite_false]
    by_cases hr : s.is_running
    · simp only [hr, ite_true]
      have hih := ih (((s.get_current_pwm raw).2).write_pwm (s.get_current_pwm raw).1) hrest
      simpa [FanConfiguration.write_pwm, FanConfiguration.get_current_pwm,
        FanConfiguration.get_temperature_percentage] using hih
    · simp [hr]

/-- The loop keeps the mode-file cursor at the start: the only loop step
that touches the mode file is a delivered `shutdown()`, which seeks back
to 0 itself. -/
theorem runLoop_mode_pos (sched : List (Bool × ℤ)) :
    ∀ s : FanConfiguration, s.mode_file.pos = 0 →
      (s.runLoop sched).1.mode_file.pos = 0 := by
  induction sched with
  | nil => intro s h; exact h
  | cons e rest ih =>
    intro s h
    obtain ⟨sd, raw⟩ := e
    have h0 : (if sd then s.shutdown else s).mode_file.pos = 0 := by
      cases sd
      · simpa using h
      · rfl
    simp only [FanConfiguration.runLoop]
    by_cases hr : (if sd then s.shutdown else s).is_running
    · simp only [hr, ite_true]
      apply ih
      simpa [FanConfiguration.write_pwm, FanConfiguration.get_current_pwm,
        FanConfiguration.get_temperature_percentage] using h0
    · simp only [hr, ite_false]
      exact h0

/-- Every event the loop itself emits is a PWM write. -/
theorem runLoop_events_pwm (sched : List (Bool × ℤ)) :
    ∀ s : FanConfiguration, ∀ e ∈ (s.runLoop sched).2, e.isModeWrite = false := by
  induction sched with
  | nil => intro s e he; simp [FanConfiguration.runLoop] at he
  | cons x rest ih =>
    intro s e he
    obtain ⟨sd, raw⟩ := x
    simp only [FanConfiguration.runLoop] at he
    by_cases hr : (if sd then s.shutdown else s).is_running
    · rw [if_pos hr] at he
      simp only [List.mem_cons] at he
      rcases he with he | he
      · subst he; rfl
      · exact ih _ e he
    · rw [if_neg hr] at he
      simp at he

/-- With the cursor at the start, the restore write of `shutdown` lands at
offset 0: it overwrites the head of the mode file with the decimal
original mode. -/
theorem shutdown_content_at_zero {s : FanConfiguration} (h : s.mode_file.pos = 0) :
    s.shutdown.mode_file.content =
      intChars s.original_mode ++
        s.mode_file.content.drop (intChars s.original_mode).length := by
  simp [FanConfiguration.shutdown, TextFile.write, TextFile.seek, h]

/-- With the cursor at the start, writing first and seeking afterwards
produces the same content as seeking first and then writing. -/
theorem shutdown_seekFirst_content {s : FanConfiguration} (h : s.mode_file.pos = 0) :
    s.shutdown.mode_file.content = (shutdownSeekFirst s).mode_file.content := by
  simp [FanConfiguration.shutdown, shutdownSeekFirst, TextFile.write, TextFile.seek, h]

/-- C1: on a fan whose PWM range came through `PWMConfiguration.from_json`
(which clamps every field into [0,255] at construction), `get_current_pwm`
returns exactly `pwm_clamp (clamped_linear_interpolation pwmMin pwmMax
fractionOfRange)`: the extra [0,255] clamp never changes the value. -/
theorem get_current_pwm_eq_clamped (s : FanConfiguration) (raw mn mx fs fstart : ℤ)
    (h : s.pwm = PWMConfiguration.from_json mn mx fs fstart) :
    (s.get_current_pwm raw).1 =
      pwm_clamp (clamped_linear_interpolation s.pwm.minimum s.pwm.maximum
        (s.get_temperature_percentage raw).1) := by
  have hmn0 : 0 ≤ s.pwm.minimum := by rw [h]; exact (pwm_clamp_bounds mn).1
  have hmn1 : s.pwm.minimum ≤ 255 := by rw [h]; exact (pwm_clamp_bounds mn).2
  have hmx1 : s.pwm.maximum ≤ 255 := by rw [h]; exact (pwm_clamp_bounds mx).2
  have hb := clamp_mem_255 (v := pyRound (lerp s.pwm.minimum s.pwm.maximum
    (s.get_temperature_percentage raw).1)) hmn0 hmn1 hmx1
  simp only [FanConfiguration.get_current_pwm]
  exact (pwm_clamp_id hb.1 hb.2).symm

/-- Witness for C1 at a concrete fan and reading. -/
theorem get_current_pwm_eq_clamped_witness :
    fanC8.pwm = PWMConfiguration.from_json 50 255 0 0 ∧
    (fanC8.get_current_pwm 50000).1 =
      pwm_clamp (clamped_linear_interpolation fanC8.pwm.minimum fanC8.pwm.maximum
        (fanC8.get_temperature_percentage 50000).1) :=
  ⟨by decide, get_current_pwm_eq_clamped fanC8 50000 50 255 0 0 (by decide)⟩

/-- C3: for `min ≤ max`, the clamped interpolation stays inside
`[min, max]` on fractions in [0,1], returns `min` on negative fractions
and `max` on fractions above 1: saturation, never extrapolation. -/
theorem clamped_linear_interpolation_saturates (mn mx : ℤ) (f : ℚ) (h : mn ≤ mx) :
    (0 ≤ f → f ≤ 1 →
      mn ≤ clamped_linear_interpolation mn mx f ∧
        clamped_linear_interpolation mn mx f ≤ mx) ∧
    (f < 0 → clamped_linear_interpolation mn mx f = mn) ∧
    (1 < f → clamped_linear_interpolation mn mx f = mx) := by
  have hq : (mn : ℚ) ≤ (mx : ℚ) := by exact_mod_cast h
  refine ⟨fun _ _ => clamp_mem h, fun hf => ?_, fun hf => ?_⟩
  · have hlerp : lerp mn mx f ≤ (mn : ℚ) := by
      have hnn : (0 : ℚ) ≤ (mx : ℚ) - (mn : ℚ) := by linarith
      have hm : ((mx : ℚ) - (mn : ℚ)) * f ≤ 0 :=
        mul_nonpos_of_nonneg_of_nonpos hnn (le_of_lt hf)
      simp only [lerp]
      linarith
    exact clamp_of_le (pyRound_le hlerp) h
  · have hlerp : (mx : ℚ) ≤ lerp mn mx f := by
      have hnn : (0 : ℚ) ≤ (mx : ℚ) - (mn : ℚ) := by linarith
      have h1 : ((mx : ℚ) - (mn : ℚ)) * 1 ≤ ((mx : ℚ) - (mn : ℚ)) * f :=
        mul_le_mul_of_nonneg_left (le_of_lt hf) hnn
      simp only [lerp]
      linarith
    exact clamp_of_ge (le_pyRound hlerp) h

/-- Witness for C3 at min 50, max 255, fraction 1/2. -/
theorem clamped_linear_interpolation_saturates_witness :
    (50 : ℤ) ≤ 255 ∧
    ((0 ≤ (1/2 : ℚ) → (1/2 : ℚ) ≤ 1 →
      (50 : ℤ) ≤ clamped_linear_interpolation 50 255 (1/2) ∧
        clamped_linear_interpolation 50 255 (1/2) ≤ 255) ∧
    ((1/2 : ℚ) < 0 → clamped_linear_interpolation 50 255 (1/2) = 50) ∧
    (1 < (1/2 : ℚ) → clamped_linear_interpolation 50 255 (1/2) = 255)) :=
  ⟨by decide, clamped_linear_interpolation_saturates 50 255 (1/2) (by decide)⟩

/-- C8: with tempMin 20, tempMax 80, pwmMin 50, pwmMax 255 and a history
holding one sustained reading, 20°C yields 50, 80°C yields 255, and 50°C
yields 152: the implementation rounds 152.5 with Python's round-half-to-even
(banker's rounding), so the half-integer tie resolves to 152, not 153. -/
theorem fan_example_pwm_values :
    (fanC8.get_current_pwm 20000).1 = 50 ∧
    (fanC8.get_current_pwm 80000).1 = 255 ∧
    (fanC8.get_current_pwm 50000).1 = 152 := by
  refine ⟨?_, ?_, ?_⟩ <;>
  · simp [FanConfiguration.get_current_pwm, FanConfiguration.get_temperature_percentage,
      TemperatureConfiguration.get_temperature, tcC8, fanC8, dequeAppend, ratMean,
      _read_temperature, TemperatureConfiguration.delta,
      show Int.tdiv 20000 1000 = 20 from by decide,
      show Int.tdiv 80000 1000 = 80 from by decide,
      show Int.tdiv 50000 1000 = 50 from by decide]
    norm_num [clamped_linear_interpolation, clamp, lerp, pyRound]

/-- C10: `shutdown` only touches the mode file and the running flag: the
PWM output file, the optional fan input, the temperature history, the PWM
configuration and the stored original mode are unchanged. -/
theorem shutdown_frame (s : FanConfiguration) :
    s.shutdown.pwm_file = s.pwm_file ∧
    s.shutdown.fan_input = s.fan_input ∧
    s.shutdown.temperature = s.temperature ∧
    s.shutdown.pwm = s.pwm ∧
    s.shutdown.original_mode = s.original_mode ∧
    s.shutdown.is_running = false :=
  ⟨rfl, rfl, rfl, rfl, rfl, rfl⟩

/-- C2 counterexample: `shutdown` writes before seeking, not after, so on
a mode file whose cursor is not at the start the restore write lands away
from offset 0 and the content differs from the seek-first behaviour the
claim describes. -/
theorem shutdown_seek_order_counterexample :
    fanPosOne.shutdown.mode_file.content ≠
      (shutdownSeekFirst fanPosOne).mode_file.content := by decide

/-- C2 (amended): `shutdown` writes `original_mode` at the current cursor
position and repositions the cursor to the start only after that write;
since the cursor is at the start whenever `shutdown` runs (construction and
every mode-file operation leave it there), the write lands at offset 0
and the seek-first description gives the same content; afterwards the
running flag is false and — in the construction scenario with mode file
"5" — the content again equals the value held at construction. -/
theorem shutdown_restores_at_start (s : FanConfiguration) (h : s.mode_file.pos = 0) :
    s.shutdown.is_running = false ∧
    s.shutdown.mode_file.pos = 0 ∧
    s.shutdown.mode_file.content = (shutdownSeekFirst s).mode_file.content ∧
    s.shutdown.mode_file.content =
      intChars s.original_mode ++
        s.mode_file.content.drop (intChars s.original_mode).length ∧
    (((FanConfiguration.post_init ⟨[], 0⟩ none tcC8 ⟨50, 255, 0, 0⟩ ['5', '\n']).run
        [(false, 50000), (false, 50000)]).1.shutdown).mode_file.content = ['5', '\n'] ∧
    (((FanConfiguration.post_init ⟨[], 0⟩ none tcC8 ⟨50, 255, 0, 0⟩ ['5', '\n']).run
        [(false, 50000), (false, 50000)]).1.shutdown).is_running = false := by
  refine ⟨rfl, rfl, shutdown_seekFirst_content h, shutdown_content_at_zero h, ?_, rfl⟩
  have hfr := runLoop_mode_file_frame [(false, 50000), (false, 50000)]
    ((FanConfiguration.post_init ⟨[], 0⟩ none tcC8 ⟨50, 255, 0, 0⟩ ['5', '\n']).set_mode
      PWMMode.MANUAL) (by decide)
  simp only [FanConfiguration.run, FanConfiguration.shutdown]
  rw [hfr.1, hfr.2]
  decide

/-- Witness for C2 (amended) at a concrete fan with the cursor at 0. -/
theorem shutdown_restores_at_start_witness :
    fanC8.mode_file.pos = 0 ∧
    (fanC8.shutdown.is_running = false ∧
     fanC8.shutdown.mode_file.pos = 0 ∧
     fanC8.shutdown.mode_file.content = (shutdownSeekFirst fanC8).mode_file.content ∧
     fanC8.shutdown.mode_file.content =
       intChars fanC8.original_mode ++
         fanC8.mode_file.content.drop (intChars fanC8.original_mode).length ∧
     (((FanConfiguration.post_init ⟨[], 0⟩ none tcC8 ⟨50, 255, 0, 0⟩ ['5', '\n']).run
         [(false, 50000), (false, 50000)]).1.shutdown).mode_file.content = ['5', '\n'] ∧
     (((FanConfiguration.post_init ⟨[], 0⟩ none tcC8 ⟨50, 255, 0, 0⟩ ['5', '\n']).run
         [(false, 50000), (false, 50000)]).1.shutdown).is_running = false) :=
  ⟨rfl, shutdown_restores_at_start fanC8 rfl⟩

/-- C4: with window capacity N ≥ 1 and an initially empty history, after
N+k samples the buffer holds exactly the last N readings (oldest evicted
first), its length is N, every call produced an output, the last output is
the rounded mean of that buffer, and a single `get_temperature` call
appends the current reading and returns the freshly computed rounded mean. -/
theorem sampler_moving_window (N k : ℕ) (tc tc2 : TemperatureConfiguration)
    (rs : List ℤ) (r : ℤ) (hN : 1 ≤ N) (hcap : tc.maxlen = N)
    (hbuf : tc.previous_temperatures = []) (hlen : rs.length = N + k) :
    (tc.sampleTrace rs).2.previous_temperatures =
      takeLast N (rs.map _read_temperature) ∧
    ((tc.sampleTrace rs).2.previous_temperatures).length = N ∧
    (tc.sampleTrace rs).1.length = rs.length ∧
    (tc.sampleTrace rs).1.getLast? =
      some (pyRound (ratMean (takeLast N (rs.map _read_temperature)))) ∧
    (tc2.get_temperature r).2.previous_temperatures =
      dequeAppend tc2.maxlen tc2.previous_temperatures (_read_temperature r) ∧
    (tc2.get_temperature r).1 =
      pyRound (ratMean (tc2.get_temperature r).2.previous_temperatures) := by
  have hb : (tc.sampleTrace rs).2.previous_temperatures =
      takeLast N (rs.map _read_temperature) := by
    have hh := sampleTrace_buffer rs tc (by rw [hbuf]; simp)
    rw [hbuf, hcap] at hh
    simpa using hh
  have hlen2 : ((tc.sampleTrace rs).2.previous_temperatures).length = N := by
    rw [hb, takeLast_length, List.length_map, hlen]
    omega
  have hne : rs ≠ [] := by
    intro hnil
    rw [hnil] at hlen
    simp at hlen
    omega
  refine ⟨hb, hlen2, sampleTrace_outputs_length rs tc, ?_, rfl, rfl⟩
  rw [← hb]
  exact sampleTrace_last rs tc hne

/-- Witness for C4: window 2, three samples 30°C, 40°C, 50°C. -/
theorem sampler_moving_window_witness :
    1 ≤ 2 ∧ tcC4.maxlen = 2 ∧ tcC4.previous_temperatures = [] ∧
    ([30000, 40000, 50000] : List ℤ).length = 2 + 1 ∧
    ((tcC4.sampleTrace [30000, 40000, 50000]).2.previous_temperatures =
      takeLast 2 (([30000, 40000, 50000] : List ℤ).map _read_temperature) ∧
    ((tcC4.sampleTrace [30000, 40000, 50000]).2.previous_temperatures).length = 2 ∧
    (tcC4.sampleTrace [30000, 40000, 50000]).1.length =
      ([30000, 40000, 50000] : List ℤ).length ∧
    (tcC4.sampleTrace [30000, 40000, 50000]).1.getLast? =
      some (pyRound (ratMean
        (takeLast 2 (([30000, 40000, 50000] : List ℤ).map _read_temperature)))) ∧
    (tcC4.get_temperature 30000).2.previous_temperatures =
      dequeAppend tcC4.maxlen tcC4.previous_temperatures (_read_temperature 30000) ∧
    (tcC4.get_temperature 30000).1 =
      pyRound (ratMean (tcC4.get_temperature 30000).2.previous_temperatures)) :=
  ⟨by decide, rfl, rfl, by decide,
    sampler_moving_window 2 1 tcC4 tcC4 [30000, 40000, 50000] 30000
      (by decide) rfl rfl (by decide)⟩

/-- C5: the loop observes the running flag at each iteration boundary:
a `shutdown()` delivered during a sleep makes the loop exit at the very
next boundary check with no further PWM writes (whatever the rest of the
schedule would have been), and a loop entered with the flag already false
exits immediately without writing. -/
theorem runLoop_no_writes_after_shutdown (s : FanConfiguration)
    (pre post rest : List (Bool × ℤ)) (r r2 : ℤ) :
    s.runLoop (pre ++ (true, r) :: post) = s.runLoop (pre ++ [(true, r)]) ∧
    (s.is_running = false → s.runLoop ((false, r2) :: rest) = (s, [])) := by
  constructor
  · induction pre generalizing s with
    | nil => rfl
    | cons e pre2 ih =>
      obtain ⟨sd, raw⟩ := e
      simp only [List.cons_append, FanConfiguration.runLoop, List.append_eq]
      by_cases hr : (if sd then s.shutdown else s).is_running
      · simp only [hr, ite_true]
        rw [ih]
      · simp [hr]
  · intro h
    simp [FanConfiguration.runLoop, h]

/-- Witness for C5 at a concrete stopped fan. -/
theorem runLoop_no_writes_after_shutdown_witness :
    fanStopped.is_running = false ∧
    fanStopped.runLoop ((false, 50000) :: []) = (fanStopped, []) ∧
    fanStopped.runLoop ([] ++ (true, 50000) :: []) =
      fanStopped.runLoop ([] ++ [(true, 50000)]) :=
  ⟨rfl,
    (runLoop_no_writes_after_shutdown fanStopped [] [] [] 50000 50000).2 rfl,
    (runLoop_no_writes_after_shutdown fanStopped [] [] [] 50000 50000).1⟩

/-- C6: the signal handler shuts every fan controller down exactly once
(it maps `shutdown` over the configured controllers), and each restore
write happens synchronously inside `shutdown` itself: for any controller
in the configuration with its cursor at the start, the mode file ends with
the original mode written at offset 0 and the running flag false. -/
theorem graceful_shutdown_restores_all (c : Configuration) (s : FanConfiguration)
    (hs : s ∈ c.controls) (h : s.mode_file.pos = 0) :
    (graceful_shutdown c).controls = c.controls.map FanConfiguration.shutdown ∧
    FanConfiguration.shutdown s ∈ (graceful_shutdown c).controls ∧
    s.shutdown.is_running = false ∧
    s.shutdown.mode_file.content =
      intChars s.original_mode ++
        s.mode_file.content.drop (intChars s.original_mode).length := by
  refine ⟨rfl, ?_, rfl, shutdown_content_at_zero h⟩
  exact List.mem_map_of_mem _ hs

/-- Witness for C6 on a one-fan configuration. -/
theorem graceful_shutdown_restores_all_witness :
    fanC8 ∈ confC6.controls ∧ fanC8.mode_file.pos = 0 ∧
    ((graceful_shutdown confC6).controls =
      confC6.controls.map FanConfiguration.shutdown ∧
    FanConfiguration.shutdown fanC8 ∈ (graceful_shutdown confC6).controls ∧
    fanC8.shutdown.is_running = false ∧
    fanC8.shutdown.mode_file.content =
      intChars fanC8.original_mode ++
        fanC8.mode_file.content.drop (intChars fanC8.original_mode).length) :=
  ⟨by decide, rfl, graceful_shutdown_restores_all confC6 fanC8 (by decide) rfl⟩

/-- C7: `run` emits the MANUAL mode write exactly once, as the very first
device event before any PWM write, and the string written is "1"; no loop
iteration writes the mode again. -/
theorem run_writes_manual_once (s : FanConfiguration) (sched : List (Bool × ℤ)) :
    (s.run sched).2.head? = some (DeviceEvent.modeWrite PWMMode.MANUAL.str) ∧
    PWMMode.MANUAL.str = ['1'] ∧
    (s.run sched).2.filter DeviceEvent.isModeWrite =
      [DeviceEvent.modeWrite PWMMode.MANUAL.str] := by
  refine ⟨rfl, by decide, ?_⟩
  have hloop := runLoop_events_pwm sched (s.set_mode PWMMode.MANUAL)
  simp only [FanConfiguration.run, List.filter_cons]
  rw [List.filter_eq_nil_iff.mpr]
  · simp [DeviceEvent.isModeWrite]
  · intro e he
    simp [hloop e he]

/-- C9: the mode-file cursor sits at offset 0 after construction, after
`set_mode`, after `shutdown` and after `run`; consequently the restore
write of `shutdown` — which writes before seeking — lands at the start of
the file. -/
theorem mode_file_pos_invariant (pf : TextFile) (fi : Option TextFile)
    (tc : TemperatureConfiguration) (pw : PWMConfiguration) (mc : List Char)
    (s : FanConfiguration) (m : PWMMode) (sched : List (Bool × ℤ))
    (h : s.mode_file.pos = 0) :
    (FanConfiguration.post_init pf fi tc pw mc).mode_file.pos = 0 ∧
    (s.set_mode m).mode_file.pos = 0 ∧
    s.shutdown.mode_file.pos = 0 ∧
    (s.run sched).1.mode_file.pos = 0 ∧
    s.shutdown.mode_file.content =
      intChars s.original_mode ++
        s.mode_file.content.drop (intChars s.original_mode).length := by
  refine ⟨rfl, rfl, rfl, ?_, shutdown_content_at_zero h⟩
  simp only [FanConfiguration.run]
  exact runLoop_mode_pos sched _ rfl

/-- Witness for C9 at a concrete fan with the cursor at 0. -/
theorem mode_file_pos_invariant_witness :
    fanC8.mode_file.pos = 0 ∧
    ((FanConfiguration.post_init ⟨[], 0⟩ none tcC8 ⟨50, 255, 0, 0⟩
        ['5', '\n']).mode_file.pos = 0 ∧
    (fanC8.set_mode PWMMode.MANUAL).mode_file.pos = 0 ∧
    fanC8.shutdown.mode_file.pos = 0 ∧
    (fanC8.run [(false, 50000)]).1.mode_file.pos = 0 ∧
    fanC8.shutdown.mode_file.content =
      intChars fanC8.original_mode ++
        fanC8.mode_file.content.drop (intChars fanC8.original_mode).length) :=
  ⟨rfl, mode_file_pos_invariant ⟨[], 0⟩ none tcC8 ⟨50, 255, 0, 0⟩ ['5', '\n']
    fanC8 PWMMode.MANUAL [(false, 50000)] rfl⟩

end FanPy
